import Mathlib

/-!
# Verification of the order-management system (uniform-studio)

Shallow embedding of the repository's authentication utilities
(`lib/auth.ts`), API route handlers (orders, notifications) and the
client-side form logic (`SalesView.tsx`, `DeliveryView.tsx`), together
with proofs of the specification claims about them.

External libraries are abstracted by parameters:
* `jv` models `jsonwebtoken`'s `jwt.verify`, which either returns a
  decoded payload or throws one of several distinguishable errors;
* `pd` models JavaScript `new Date(string).getTime()` (date parsing).

The relational store (Prisma) is modelled as an in-memory list of rows;
`update`/`delete` on a missing row throw (Prisma error P2025), which the
route handlers catch in their catch-all `try/catch`, producing a 500
response.
-/

namespace US81

/-! ## lib/auth.ts : credential gate -/

/-- JWT payload carried inside a signed token (interface `JWTPayload`). -/
structure JWTPayload where
  userId : String
  email : String
  role : String
deriving DecidableEq

/-- Distinguishable failure modes of the `jsonwebtoken` library's
`verify` (it throws different error classes for each). -/
inductive JwtError
  | badSignature
  | expired
  | malformed
deriving DecidableEq

/-- `verifyToken` from `lib/auth.ts`: calls `jwt.verify` inside a
`try/catch` and collapses every failure to `null`. The library itself
is the parameter `jv`. -/
def verifyToken (jv : String → Except JwtError JWTPayload) (token : String) :
    Option JWTPayload :=
  match jv token with
  | Except.ok p => some p
  | Except.error _ => none

/-- JS `String.prototype.startsWith`, modelled over the character list
(equivalent to Lean's `String.startsWith`, but computable by the
kernel). -/
def strStartsWith (s p : String) : Bool :=
  p.data.isPrefixOf s.data

/-- JS `String.prototype.substring(n)`, modelled over the character
list. -/
def strDrop (s : String) (n : Nat) : String :=
  String.mk (s.data.drop n)

/-- JS `String.prototype.trim()`: strip whitespace from both ends,
modelled over the character list (equivalent to Lean's `String.trim`,
but computable by the kernel). -/
def strTrim (s : String) : String :=
  String.mk (((s.data.dropWhile Char.isWhitespace).reverse.dropWhile
    Char.isWhitespace).reverse)

/-- `extractTokenFromHeader` from `lib/auth.ts`: `null`/empty header is
rejected (JS truthiness `!authHeader`), then the header must start with
the exact string "Bearer ", and the rest (`substring(7)`) is returned. -/
def extractTokenFromHeader (authHeader : Option String) : Option String :=
  match authHeader with
  | none => none
  | some s =>
    if s = "" then none
    else if strStartsWith s "Bearer " then some (strDrop s 7)
    else none

/-- `authenticateRequest` from `lib/auth.ts`: extract the bearer token
(JS `!token` also rejects the empty token) and delegate to
`verifyToken`. -/
def authenticateRequest (jv : String → Except JwtError JWTPayload)
    (authHeader : Option String) : Option JWTPayload :=
  match extractTokenFromHeader authHeader with
  | none => none
  | some t => if t = "" then none else verifyToken jv t

/-! ## Domain types (types.ts / prisma schema) -/

/-- `ProductionStatus`: the fixed eight-label production enumeration. -/
inductive ProductionStatus
  | orderReceived
  | inspection
  | cutting
  | stitching
  | embroideryPrinting
  | qualityCheck
  | packing
  | delivered
deriving DecidableEq

/-- `OrderType` from types.ts. -/
inductive OrderType
  | preProductionSample
  | finalProduction
deriving DecidableEq

/-- `SizeQuantity` from types.ts: one row of the size breakdown. -/
structure SizeQuantity where
  size : String
  quantity : Nat
deriving DecidableEq

/-- Outcome status of a post-delivery inspection. -/
inductive OutcomeStatus
  | successful
  | alterationRequired
deriving DecidableEq

/-- `PostDeliveryIssue` from types.ts. -/
structure PostDeliveryIssue where
  status : OutcomeStatus
  reason : Option String := none
  solution : Option String := none
  loggedAt : Option String := none
  salesComments : Option String := none
deriving DecidableEq

/-- Server-side `Order` row (prisma model / API shape). Dates are stored
as timestamps (`DateTime` columns, produced by `new Date(...)`, modelled
via the parsing parameter `pd`). -/
structure Order where
  id : String
  orderNumber : String
  type : OrderType
  date : Nat
  startDate : Nat
  deliveryDate : Nat
  clientName : String
  brand : String
  productName : String
  itemDescription : String
  fabric : List String
  color : String
  sleeve : String
  fabricSupplier : List String
  accessories : List String
  patternFollowed : String
  cmPrice : List Int
  cmUnit : List String
  cmPartner : String
  embroideryPrint : List String
  sizes : List SizeQuantity
  totalQuantity : Nat
  images : List String
  logoImage : Option String := none
  status : ProductionStatus
  notes : Option String := none
  postDelivery : Option PostDeliveryIssue := none
  salesPersonId : String
  createdAt : Nat
deriving DecidableEq

/-- `Notification` row (prisma model). -/
structure Notification where
  id : String
  userId : String
  title : String
  message : String
  type : String
  read : Bool
  createdAt : Nat
deriving DecidableEq

/-! ## Request bodies -/

/-- Body of `POST /api/orders` (app/api/orders/route.ts). Date fields
arrive as strings; `salesPersonId` may be supplied by the client but the
handler overwrites it after spreading the body
(`salesPersonId: user.userId` follows `...body`). -/
structure OrderCreateBody where
  orderNumber : String
  type : OrderType
  date : String
  startDate : String
  deliveryDate : String
  clientName : String
  brand : String
  productName : String
  itemDescription : String
  fabric : List String
  color : String
  sleeve : String
  fabricSupplier : List String
  accessories : List String
  patternFollowed : String
  cmPrice : List Int
  cmUnit : List String
  cmPartner : String
  embroideryPrint : List String
  sizes : List SizeQuantity
  totalQuantity : Nat
  images : List String
  logoImage : Option String := none
  status : ProductionStatus
  notes : Option String := none
  salesPersonId : Option String := none
deriving DecidableEq

/-- Partial body of `PUT /api/orders/[id]`: any subset of mutable
fields; present fields overwrite verbatim (`updateData = { ...body }`),
except the three date fields, which are parsed from their textual form
(`new Date(body.date)` etc.) when present. Prisma stores `status` as a
plain string and the handler performs no validation on it; the model
restricts the field to the eight production labels, which is the range
the claims quantify over. -/
structure OrderUpdateBody where
  orderNumber : Option String := none
  type : Option OrderType := none
  date : Option String := none
  startDate : Option String := none
  deliveryDate : Option String := none
  clientName : Option String := none
  brand : Option String := none
  productName : Option String := none
  itemDescription : Option String := none
  color : Option String := none
  sleeve : Option String := none
  patternFollowed : Option String := none
  cmPartner : Option String := none
  sizes : Option (List SizeQuantity) := none
  totalQuantity : Option Nat := none
  status : Option ProductionStatus := none
  notes : Option String := none
  postDelivery : Option PostDeliveryIssue := none
deriving DecidableEq

/-- The partial-field merge performed by `prisma.order.update` with
`data: updateData` in the PUT handler: every field present in the body
overwrites the stored value verbatim; date fields are parsed first via
`pd`. -/
def applyUpdate (pd : String → Nat) (o : Order) (b : OrderUpdateBody) : Order :=
  { o with
    orderNumber := b.orderNumber.getD o.orderNumber
    type := b.type.getD o.type
    date := match b.date with | some s => pd s | none => o.date
    startDate := match b.startDate with | some s => pd s | none => o.startDate
    deliveryDate := match b.deliveryDate with | some s => pd s | none => o.deliveryDate
    clientName := b.clientName.getD o.clientName
    brand := b.brand.getD o.brand
    productName := b.productName.getD o.productName
    itemDescription := b.itemDescription.getD o.itemDescription
    color := b.color.getD o.color
    sleeve := b.sleeve.getD o.sleeve
    patternFollowed := b.patternFollowed.getD o.patternFollowed
    cmPartner := b.cmPartner.getD o.cmPartner
    sizes := b.sizes.getD o.sizes
    totalQuantity := b.totalQuantity.getD o.totalQuantity
    status := b.status.getD o.status
    notes := match b.notes with | some s => some s | none => o.notes
    postDelivery := match b.postDelivery with | some i => some i | none => o.postDelivery }

/-- `orderData` built by the POST handler: the spread body with the
three dates parsed and `salesPersonId` overwritten from the
authenticated token (`salesPersonId: user.userId`). `freshId` and `now`
stand for the id and `createdAt` the database generates. -/
def buildOrderData (pd : String → Nat) (user : JWTPayload) (freshId : String)
    (now : Nat) (b : OrderCreateBody) : Order :=
  { id := freshId
    orderNumber := b.orderNumber
    type := b.type
    date := pd b.date
    startDate := pd b.startDate
    deliveryDate := pd b.deliveryDate
    clientName := b.clientName
    brand := b.brand
    productName := b.productName
    itemDescription := b.itemDescription
    fabric := b.fabric
    color := b.color
    sleeve := b.sleeve
    fabricSupplier := b.fabricSupplier
    accessories := b.accessories
    patternFollowed := b.patternFollowed
    cmPrice := b.cmPrice
    cmUnit := b.cmUnit
    cmPartner := b.cmPartner
    embroideryPrint := b.embroideryPrint
    sizes := b.sizes
    totalQuantity := b.totalQuantity
    images := b.images
    logoImage := b.logoImage
    status := b.status
    notes := b.notes
    postDelivery := none
    salesPersonId := user.userId
    createdAt := now }

/-! ## Order route handlers

Each handler is a function of the authorization header, the request
parameters/body and the current store, returning the response together
with the store after the request. -/

/-- Responses of the order routes. `okOrder` carries the (transformed)
order returned in the JSON body; `serverError` is the catch-all 500. -/
inductive OrderResp
  | unauthorized
  | notFound
  | duplicateOrderNumber
  | serverError
  | okOrder (o : Order)
  | okList (os : List Order)
  | okDeleted
deriving DecidableEq

/-- `prisma.order.findUnique({ where: { id } })`. -/
def findOrder (store : List Order) (oid : String) : Option Order :=
  store.find? (fun o => o.id == oid)

/-- GET /api/orders/[id]: authenticate, fetch, 404 when absent. -/
def orderGET (jv : String → Except JwtError JWTPayload) (h : Option String)
    (oid : String) (store : List Order) : OrderResp × List Order :=
  match authenticateRequest jv h with
  | none => (OrderResp.unauthorized, store)
  | some _ =>
    match findOrder store oid with
    | none => (OrderResp.notFound, store)
    | some o => (OrderResp.okOrder o, store)

/-- PUT /api/orders/[id]: authenticate, then `prisma.order.update` with
the merged body. When no row has the id, `update` throws (P2025) and the
handler's catch-all returns the generic 500. -/
def orderPUT (jv : String → Except JwtError JWTPayload) (pd : String → Nat)
    (h : Option String) (oid : String) (b : OrderUpdateBody)
    (store : List Order) : OrderResp × List Order :=
  match authenticateRequest jv h with
  | none => (OrderResp.unauthorized, store)
  | some _ =>
    match findOrder store oid with
    | none => (OrderResp.serverError, store)
    | some o =>
      let o' := applyUpdate pd o b
      (OrderResp.okOrder o', store.map (fun x => if x.id == oid then o' else x))

/-- DELETE /api/orders/[id]: authenticate, then `prisma.order.delete`.
When no row has the id, `delete` throws (P2025) and the catch-all
returns the generic 500. -/
def orderDELETE (jv : String → Except JwtError JWTPayload) (h : Option String)
    (oid : String) (store : List Order) : OrderResp × List Order :=
  match authenticateRequest jv h with
  | none => (OrderResp.unauthorized, store)
  | some _ =>
    match findOrder store oid with
    | none => (OrderResp.serverError, store)
    | some _ => (OrderResp.okDeleted, store.filter (fun x => !(x.id == oid)))

/-- POST /api/orders: authenticate, build `orderData` from the body
with `salesPersonId` taken from the token, reject a duplicate
`orderNumber` (findUnique on the unique column), otherwise create. -/
def ordersPOST (jv : String → Except JwtError JWTPayload) (pd : String → Nat)
    (h : Option String) (freshId : String) (now : Nat) (b : OrderCreateBody)
    (store : List Order) : OrderResp × List Order :=
  match authenticateRequest jv h with
  | none => (OrderResp.unauthorized, store)
  | some user =>
    let orderData := buildOrderData pd user freshId now b
    match store.find? (fun o => o.orderNumber == b.orderNumber) with
    | some _ => (OrderResp.duplicateOrderNumber, store)
    | none => (OrderResp.okOrder orderData, store ++ [orderData])

/-- GET /api/orders: authenticate, return all orders newest-first
(`orderBy: { createdAt: 'desc' }`). -/
def ordersGET (jv : String → Except JwtError JWTPayload) (h : Option String)
    (store : List Order) : OrderResp × List Order :=
  match authenticateRequest jv h with
  | none => (OrderResp.unauthorized, store)
  | some _ =>
    (OrderResp.okList (store.mergeSort (fun a b => b.createdAt ≤ a.createdAt)), store)

/-! ## Notification route handlers -/

/-- Responses of the notification routes. `okRead` carries the
`{ id, read }` JSON of the mark-one-read route; `okCount` the
`{ message, count }` of the read-all route. -/
inductive NotifResp
  | unauthorized
  | serverError
  | okList (ns : List Notification)
  | okCreated (n : Notification)
  | okRead (id : String) (read : Bool)
  | okCount (count : Nat)
deriving DecidableEq

/-- GET /api/notifications: authenticate, then
`findMany({ where: { userId: user.userId }, orderBy: createdAt desc })`.
The route then maps each row to its DTO, dropping `userId`; the model
returns the rows themselves. -/
def notifsGET (jv : String → Except JwtError JWTPayload) (h : Option String)
    (store : List Notification) : NotifResp :=
  match authenticateRequest jv h with
  | none => NotifResp.unauthorized
  | some user =>
    NotifResp.okList
      ((store.filter (fun n => n.userId == user.userId)).mergeSort
        (fun a b => b.createdAt ≤ a.createdAt))

/-- Body of POST /api/notifications. -/
structure NotifCreateBody where
  userId : Option String := none
  title : String
  message : String
  type : Option String := none
deriving DecidableEq

/-- POST /api/notifications: authenticate, then create with
`userId: userId || user.userId` (owner defaults to the caller) and
`type: type || 'info'`; `read` defaults to false in the schema. -/
def notifsPOST (jv : String → Except JwtError JWTPayload) (h : Option String)
    (freshId : String) (now : Nat) (b : NotifCreateBody)
    (store : List Notification) : NotifResp × List Notification :=
  match authenticateRequest jv h with
  | none => (NotifResp.unauthorized, store)
  | some user =>
    let n : Notification :=
      { id := freshId
        userId := b.userId.getD user.userId
        title := b.title
        message := b.message
        type := b.type.getD "info"
        read := false
        createdAt := now }
    (NotifResp.okCreated n, store ++ [n])

/-- PUT /api/notifications/[id]/read: authenticate, then
`prisma.notification.update({ where: { id, userId: user.userId } })` —
the ownership check is part of the lookup predicate itself. When no row
matches both the id and the caller, `update` throws (P2025) and the
catch-all returns the generic 500, leaving the store untouched. -/
def notifReadPUT (jv : String → Except JwtError JWTPayload) (h : Option String)
    (nid : String) (store : List Notification) : NotifResp × List Notification :=
  match authenticateRequest jv h with
  | none => (NotifResp.unauthorized, store)
  | some user =>
    match store.find? (fun n => n.id == nid && n.userId == user.userId) with
    | none => (NotifResp.serverError, store)
    | some n =>
      (NotifResp.okRead n.id true,
       store.map (fun x =>
         if x.id == nid && x.userId == user.userId then { x with read := true } else x))

/-- The `updateMany({ where: { userId, read: false }, data: { read:
true } })` of the read-all route: returns the count of matched rows and
the store with those rows flipped. -/
def markAllReadCore (uid : String) (store : List Notification) :
    Nat × List Notification :=
  ((store.filter (fun n => n.userId == uid && !n.read)).length,
   store.map (fun n =>
     if n.userId == uid && !n.read then { n with read := true } else n))

/-- PUT /api/notifications/read-all: authenticate, then bulk-flip the
caller's unread notifications and return the count. -/
def readAllPUT (jv : String → Except JwtError JWTPayload) (h : Option String)
    (store : List Notification) : NotifResp × List Notification :=
  match authenticateRequest jv h with
  | none => (NotifResp.unauthorized, store)
  | some user =>
    let r := markAllReadCore user.userId store
    (NotifResp.okCount r.1, r.2)

/-! ## Client-side order form (SalesView.tsx) -/

/-- The fixed size templates of SalesView.tsx. -/
def TOP_SIZES : List String := ["XS", "S", "M", "L", "XL", "2XL", "3XL"]

/-- Bottom-garment size template. -/
def BOTTOM_SIZES : List String := ["28", "30", "32", "34", "36", "38", "40", "42"]

/-- The size-category selector of an item tab. -/
inductive SizeCategory
  | top
  | bottom
  | custom
deriving DecidableEq

/-- `ItemForm` from SalesView.tsx: the per-item tab state of the order
form. -/
structure ItemForm where
  id : String
  productName : String
  itemDescription : String
  accessories : List String
  fabric : List String
  color : String
  sleeve : String
  embroideryPrint : List String
  fabricSupplier : List String
  patternFollowed : String
  cmPrice : List String
  cmUnit : List String
  images : List String
  sizes : List SizeQuantity
  totalQuantity : Nat
  sizeCategory : SizeCategory
deriving DecidableEq

/-- The reduction `sizes.reduce((acc, curr) => acc + (Number(curr.quantity)
|| 0), 0)` used by every recomputation site in SalesView.tsx. -/
def sumQuantities (sizes : List SizeQuantity) : Nat :=
  sizes.foldl (fun acc curr => acc + curr.quantity) 0

/-- Which field of a size row an edit targets, with the new value. -/
inductive SizeFieldValue
  | size (v : String)
  | quantity (v : Nat)
deriving DecidableEq

/-- `handleSizeChange` from SalesView.tsx, restricted to one item tab:
replace the field of row `sizeIdx` and recompute `totalQuantity` as the
sum over the new rows. -/
def handleSizeChange (it : ItemForm) (sizeIdx : Nat) (fv : SizeFieldValue) :
    ItemForm :=
  let newSizes := it.sizes.mapIdx (fun i sq =>
    if i = sizeIdx then
      match fv with
      | SizeFieldValue.size v => { sq with size := v }
      | SizeFieldValue.quantity v => { sq with quantity := v }
    else sq)
  { it with sizes := newSizes, totalQuantity := sumQuantities newSizes }

/-- `addSizeRow` from SalesView.tsx: push an empty row; `totalQuantity`
is not recomputed here (the new row's quantity is 0). -/
def addSizeRow (it : ItemForm) : ItemForm :=
  { it with sizes := it.sizes ++ [{ size := "", quantity := 0 }] }

/-- `removeSizeRow` from SalesView.tsx, restricted to one item tab:
drop row `sizeIdx` (`filter((_, i) => i !== sizeIdx)`) and recompute
`totalQuantity`. -/
def removeSizeRow (it : ItemForm) (sizeIdx : Nat) : ItemForm :=
  let newSizes := it.sizes.eraseIdx sizeIdx
  { it with sizes := newSizes, totalQuantity := sumQuantities newSizes }

/-- The `field === 'sizeCategory'` branch of `handleItemChange` in
SalesView.tsx: reset the rows to the chosen template (empty for
Custom) and recompute `totalQuantity`. -/
def setSizeCategory (it : ItemForm) (v : SizeCategory) : ItemForm :=
  let newSizes : List SizeQuantity :=
    match v with
    | SizeCategory.top => TOP_SIZES.map (fun s => { size := s, quantity := 0 })
    | SizeCategory.bottom => BOTTOM_SIZES.map (fun s => { size := s, quantity := 0 })
    | SizeCategory.custom => []
  { it with
    sizeCategory := v
    sizes := newSizes
    totalQuantity := sumQuantities newSizes }

/-! ## Client-side quality terminal (DeliveryView.tsx) -/

/-- Client-side `Order` from src/types.ts (dates textual, sales person
by display name). -/
structure ClientOrder where
  id : String
  orderNumber : String
  type : OrderType
  date : String
  startDate : String
  deliveryDate : String
  clientName : String
  brand : String
  productName : String
  itemDescription : String
  fabric : List String
  color : String
  sleeve : String
  fabricSupplier : List String
  accessories : List String
  patternFollowed : String
  cmPrice : List Int
  cmUnit : List String
  cmPartner : String
  embroideryPrint : List String
  sizes : List SizeQuantity
  totalQuantity : Nat
  images : List String
  logoImage : Option String := none
  status : ProductionStatus
  postDelivery : Option PostDeliveryIssue := none
  salesPerson : String
  notes : Option String := none
deriving DecidableEq

/-- `handleLogIssue` from DeliveryView.tsx: with no selected order it is
a no-op; when the outcome is Alteration Required with an absent, empty
or whitespace solution (`!issueData.solution?.trim()`) it alerts and
returns without updating; otherwise it emits the updated order with
`status: 'Delivered'` and the outcome stamped with `loggedAt`. `none`
models the no-update paths. -/
def handleLogIssue (selectedOrder : Option ClientOrder)
    (issueData : PostDeliveryIssue) (now : String) : Option ClientOrder :=
  match selectedOrder with
  | none => none
  | some o =>
    if issueData.status = OutcomeStatus.alterationRequired ∧
        (strTrim (issueData.solution.getD "") = "") then
      none
    else
      some { o with
        status := ProductionStatus.delivered,
        postDelivery := some { issueData with loggedAt := some now } }

/-! ## Concrete fixtures for witnesses and counterexamples -/

/-- A sales user, as decoded from a valid token. -/
def demoUserA : JWTPayload :=
  { userId := "userA", email := "a@example.com", role := "Sales" }

/-- A second, distinct user. -/
def demoUserB : JWTPayload :=
  { userId := "userB", email := "b@example.com", role := "Production" }

/-- Concrete model of the token library: two known-good tokens, every
other string fails verification. -/
def demoJv : String → Except JwtError JWTPayload := fun t =>
  if t = "tokA" then Except.ok demoUserA
  else if t = "tokB" then Except.ok demoUserB
  else Except.error JwtError.malformed

/-- Concrete stand-in for the date parser. -/
def demoParse : String → Nat := fun s => s.length

/-- A persisted order currently in the Cutting stage. -/
def demoOrder : Order :=
  { id := "o1"
    orderNumber := "OS-1001"
    type := OrderType.finalProduction
    date := 1
    startDate := 2
    deliveryDate := 3
    clientName := "Acme"
    brand := "BrandX"
    productName := "Jersey"
    itemDescription := "Polo"
    fabric := ["Mesh"]
    color := "Teal"
    sleeve := "Short"
    fabricSupplier := []
    accessories := []
    patternFollowed := ""
    cmPrice := []
    cmUnit := []
    cmPartner := ""
    embroideryPrint := []
    sizes := [{ size := "M", quantity := 3 }, { size := "L", quantity := 2 }]
    totalQuantity := 5
    images := []
    status := ProductionStatus.cutting
    salesPersonId := "userA"
    createdAt := 0 }

/-- A creation body whose client-supplied `salesPersonId` and
`totalQuantity` disagree with the authenticated caller and with the sum
of the submitted sizes. -/
def demoCreateBody : OrderCreateBody :=
  { orderNumber := "OS-1002"
    type := OrderType.finalProduction
    date := "2025-01-15"
    startDate := "2025-01-16"
    deliveryDate := "2025-02-15"
    clientName := "Acme"
    brand := "BrandX"
    productName := "Jersey"
    itemDescription := "Polo"
    fabric := ["Mesh"]
    color := "Teal"
    sleeve := "Short"
    fabricSupplier := []
    accessories := []
    patternFollowed := ""
    cmPrice := []
    cmUnit := []
    cmPartner := ""
    embroideryPrint := []
    sizes := [{ size := "M", quantity := 3 }, { size := "L", quantity := 2 }]
    totalQuantity := 999
    images := []
    status := ProductionStatus.orderReceived
    salesPersonId := some "someone-else" }

/-- The row the POST handler persists for `demoCreateBody`. -/
def demoCreatedOrder : Order := buildOrderData demoParse demoUserA "new1" 10 demoCreateBody

/-- An alteration outcome with an empty solution. -/
def demoAltIssue : PostDeliveryIssue :=
  { status := OutcomeStatus.alterationRequired, solution := some "" }

/-- An update body carrying only the alteration outcome above. -/
def demoAltBody : OrderUpdateBody := { postDelivery := some demoAltIssue }

/-- An update body that only moves the status to Packing. -/
def demoStatusBody : OrderUpdateBody := { status := some ProductionStatus.packing }

/-- An empty partial-update body. -/
def demoEmptyBody : OrderUpdateBody := {}

/-- An update body setting only the (client-claimed) total quantity. -/
def demoTotalBody : OrderUpdateBody := { totalQuantity := some 42 }

/-- A notification-creation body. -/
def demoNotifBody : NotifCreateBody :=
  { title := "New Order Created", message := "OS-1002 has been added." }

/-- An item tab of the order form with a custom breakdown. -/
def demoItemForm : ItemForm :=
  { id := "i1"
    productName := "Jersey"
    itemDescription := "Polo"
    accessories := [""]
    fabric := [""]
    color := ""
    sleeve := ""
    embroideryPrint := [""]
    fabricSupplier := [""]
    patternFollowed := ""
    cmPrice := [""]
    cmUnit := [""]
    images := []
    sizes := [{ size := "M", quantity := 3 }, { size := "L", quantity := 2 }]
    totalQuantity := 5
    sizeCategory := SizeCategory.custom }

/-! ## Claim C5 -/

/-- C5: token verification and request authentication fail closed to a
single absent result: `verifyToken` returns `none` on any failing token
whatever the library's failure reason; `authenticateRequest` returns
`none` when the Authorization header is missing or does not begin with
the exact "Bearer " marker, and otherwise returns `verifyToken` of the
substring after it (the library rejecting the empty token, which is the
hypothesis `h0`). -/
theorem c5_auth_fails_closed (jv : String → Except JwtError JWTPayload)
    (h0 : ∃ e, jv "" = Except.error e) :
    (∀ t e, jv t = Except.error e → verifyToken jv t = none) ∧
    authenticateRequest jv none = none ∧
    (∀ s, ¬ strStartsWith s "Bearer " → authenticateRequest jv (some s) = none) ∧
    (∀ s, strStartsWith s "Bearer " →
      authenticateRequest jv (some s) = verifyToken jv (strDrop s 7)) := by
  refine ⟨?_, rfl, ?_, ?_⟩
  · intro t e he
    simp [verifyToken, he]
  · intro s hs
    by_cases h1 : s = ""
    · simp [authenticateRequest, extractTokenFromHeader, h1]
    · simp [authenticateRequest, extractTokenFromHeader, h1, hs]
  · intro s hs
    have h1 : s ≠ "" := by
      intro h
      rw [h] at hs
      exact absurd hs (by decide)
    by_cases h2 : strDrop s 7 = ""
    · obtain ⟨e, he⟩ := h0
      simp [authenticateRequest, extractTokenFromHeader, h1, hs, h2, verifyToken, he]
    · simp [authenticateRequest, extractTokenFromHeader, h1, hs, h2]

/-- Witness for C5 at the concrete library model. -/
theorem c5_auth_fails_closed_witness :
    verifyToken demoJv "bad" = none ∧
    authenticateRequest demoJv none = none ∧
    authenticateRequest demoJv (some "Token tokA") = none ∧
    authenticateRequest demoJv (some "Bearer tokA") = verifyToken demoJv "tokA" := by
  have h := c5_auth_fails_closed demoJv ⟨JwtError.malformed, rfl⟩
  refine ⟨h.1 "bad" JwtError.malformed rfl, h.2.1,
    h.2.2.1 "Token tokA" (by decide), ?_⟩
  have h4 := h.2.2.2 "Bearer tokA" (by decide)
  have h5 : strDrop "Bearer tokA" 7 = "tokA" := by decide
  rw [h5] at h4
  exact h4

/-! ## Claim C6 -/

/-- C6: whatever authoring identity the client supplies in the body of
an authenticated order-creation request, the persisted order's
`salesPersonId` is the `userId` of the caller's token (the handler
assigns it after spreading the body). -/
theorem c6_author_from_token (jv : String → Except JwtError JWTPayload)
    (pd : String → Nat) (h : Option String) (fid : String) (now : Nat)
    (b : OrderCreateBody) (store : List Order) (user : JWTPayload)
    (hauth : authenticateRequest jv h = some user)
    (hdup : store.find? (fun o => o.orderNumber == b.orderNumber) = none) :
    (ordersPOST jv pd h fid now b store).1 =
      OrderResp.okOrder (buildOrderData pd user fid now b) ∧
    (buildOrderData pd user fid now b).salesPersonId = user.userId := by
  constructor
  · simp [ordersPOST, hauth, hdup]
  · rfl

/-- Witness for C6: the client claims "someone-else" authored the
order; the persisted row carries the token's user instead. -/
theorem c6_author_from_token_witness :
    (ordersPOST demoJv demoParse (some "Bearer tokA") "new1" 10 demoCreateBody []).1 =
      OrderResp.okOrder (buildOrderData demoParse demoUserA "new1" 10 demoCreateBody) ∧
    (buildOrderData demoParse demoUserA "new1" 10 demoCreateBody).salesPersonId =
      demoUserA.userId :=
  c6_author_from_token demoJv demoParse (some "Bearer tokA") "new1" 10
    demoCreateBody [] demoUserA (by decide) rfl

/-! ## Claim C2 -/

/-- C2: for every existing order and every label of the eight-label
production enumeration, an authenticated update whose body sets that
status succeeds and the returned order carries exactly that status,
whatever the order's prior status: the handler consults no transition
table. -/
theorem c2_status_unguarded (jv : String → Except JwtError JWTPayload)
    (pd : String → Nat) (h : Option String) (oid : String)
    (b : OrderUpdateBody) (store : List Order) (user : JWTPayload)
    (o : Order) (st : ProductionStatus)
    (hauth : authenticateRequest jv h = some user)
    (hfind : findOrder store oid = some o)
    (hstatus : b.status = some st) :
    (orderPUT jv pd h oid b store).1 = OrderResp.okOrder (applyUpdate pd o b) ∧
    (applyUpdate pd o b).status = st := by
  constructor
  · simp [orderPUT, hauth, hfind]
  · simp [applyUpdate, hstatus]

/-- Witness for C2: the spec's example scenario — an order in Cutting
is moved (backward-agnostically) to Packing and the response carries
Packing. -/
theorem c2_status_unguarded_witness :
    (orderPUT demoJv demoParse (some "Bearer tokA") "o1" demoStatusBody [demoOrder]).1 =
      OrderResp.okOrder (applyUpdate demoParse demoOrder demoStatusBody) ∧
    (applyUpdate demoParse demoOrder demoStatusBody).status =
      ProductionStatus.packing :=
  c2_status_unguarded demoJv demoParse (some "Bearer tokA") "o1" demoStatusBody
    [demoOrder] demoUserA demoOrder ProductionStatus.packing (by decide) rfl rfl

/-! ## Claim C3 -/

/-- A client-side order sitting in the quality queue, not yet
delivered. -/
def demoClientOrder : ClientOrder :=
  { id := "o1"
    orderNumber := "OS-1001"
    type := OrderType.finalProduction
    date := "2025-01-15"
    startDate := "2025-01-16T09:00"
    deliveryDate := "2025-02-15T17:00"
    clientName := "Acme"
    brand := "BrandX"
    productName := "Jersey"
    itemDescription := "Polo"
    fabric := ["Mesh"]
    color := "Teal"
    sleeve := "Short"
    fabricSupplier := []
    accessories := []
    patternFollowed := ""
    cmPrice := []
    cmUnit := []
    cmPartner := ""
    embroideryPrint := []
    sizes := [{ size := "M", quantity := 3 }, { size := "L", quantity := 2 }]
    totalQuantity := 5
    images := []
    status := ProductionStatus.packing
    salesPerson := "System Admin" }

/-- A successful inspection outcome. -/
def demoOkIssue : PostDeliveryIssue := { status := OutcomeStatus.successful }

/-- The order emitted by `handleLogIssue` for the fixtures above. -/
def demoLoggedOrder : ClientOrder :=
  { demoClientOrder with
    status := ProductionStatus.delivered
    postDelivery := some { demoOkIssue with loggedAt := some "2025-02-16" } }

/-- C3: whenever logging a post-delivery outcome actually attaches the
record (the handler emits an updated order), that order's status is
`Delivered`, whatever it was before. -/
theorem c3_outcome_forces_delivered (o : ClientOrder)
    (issue : PostDeliveryIssue) (now : String) (o' : ClientOrder)
    (hlog : handleLogIssue (some o) issue now = some o') :
    o'.status = ProductionStatus.delivered ∧
    o'.postDelivery = some { issue with loggedAt := some now } := by
  simp only [handleLogIssue] at hlog
  by_cases hc : issue.status = OutcomeStatus.alterationRequired ∧
      (strTrim (issue.solution.getD "") = "")
  · rw [if_pos hc] at hlog
    exact absurd hlog (by simp)
  · rw [if_neg hc] at hlog
    have := Option.some.inj hlog
    rw [← this]
    exact ⟨rfl, rfl⟩

/-- Witness for C3: an order in Packing is forced to Delivered by a
successful outcome. -/
theorem c3_outcome_forces_delivered_witness :
    demoLoggedOrder.status = ProductionStatus.delivered ∧
    demoLoggedOrder.postDelivery =
      some { demoOkIssue with loggedAt := some "2025-02-16" } :=
  c3_outcome_forces_delivered demoClientOrder demoOkIssue "2025-02-16"
    demoLoggedOrder (by decide)

/-! ## Claim C4 -/

/-- Counterexample for C4: the persistence boundary does not reject the
payload the UI refuses — an authenticated PUT carrying an
Alteration-Required outcome with an empty solution succeeds and the
outcome is persisted verbatim. -/
theorem c4_counterexample :
    (orderPUT demoJv demoParse (some "Bearer tokA") "o1" demoAltBody [demoOrder]).1 =
      OrderResp.okOrder (applyUpdate demoParse demoOrder demoAltBody) ∧
    (applyUpdate demoParse demoOrder demoAltBody).postDelivery = some demoAltIssue ∧
    demoAltIssue.status = OutcomeStatus.alterationRequired ∧
    demoAltIssue.solution = some "" := by
  refine ⟨?_, rfl, rfl, rfl⟩
  decide

/-- C4 (amended): an Alteration-Required outcome whose solution is
absent, empty or whitespace is refused by the UI layer
(`handleLogIssue` returns without updating), but the persistence
boundary performs no such check: the PUT handler persists any
`postDelivery` payload verbatim. -/
theorem c4_ui_only_validation (o : ClientOrder) (issue : PostDeliveryIssue)
    (now : String) (pd : String → Nat) (ord : Order) (b : OrderUpdateBody)
    (i : PostDeliveryIssue)
    (halt : issue.status = OutcomeStatus.alterationRequired)
    (hsol : strTrim (issue.solution.getD "") = "")
    (hb : b.postDelivery = some i) :
    handleLogIssue (some o) issue now = none ∧
    (applyUpdate pd ord b).postDelivery = some i := by
  constructor
  · simp only [handleLogIssue]
    rw [if_pos ⟨halt, hsol⟩]
  · simp [applyUpdate, hb]

/-- Witness for C4 (amended) at the concrete fixtures. -/
theorem c4_ui_only_validation_witness :
    handleLogIssue (some demoClientOrder) demoAltIssue "2025-02-16" = none ∧
    (applyUpdate demoParse demoOrder demoAltBody).postDelivery =
      some demoAltIssue :=
  c4_ui_only_validation demoClientOrder demoAltIssue "2025-02-16" demoParse
    demoOrder demoAltBody demoAltIssue rfl (by decide) rfl

/-! ## Claim C1 -/

/-- Counterexample for C1: the persistence boundary trusts the
client-supplied total. An authenticated POST whose breakdown sums to 5
but whose body claims `totalQuantity = 999` persists 999: the total was
not recomputed by the system when quantities changed. -/
theorem c1_counterexample :
    (ordersPOST demoJv demoParse (some "Bearer tokA") "new1" 10 demoCreateBody []).1 =
      OrderResp.okOrder demoCreatedOrder ∧
    demoCreatedOrder.totalQuantity = 999 ∧
    sumQuantities demoCreatedOrder.sizes = 5 := by
  refine ⟨?_, rfl, rfl⟩
  decide

/-- C1 (amended): every UI edit to the breakdown — changing a size row
via `handleSizeChange`, removing a row, or switching the size
category — recomputes `totalQuantity` as the arithmetic sum of the
breakdown; the persistence boundary, however, does not recompute it:
both the creation and the update route persist the client-supplied
`totalQuantity` verbatim. -/
theorem c1_total_recomputed_in_ui (it : ItemForm) (sizeIdx : Nat)
    (fv : SizeFieldValue) (v : SizeCategory) (pd : String → Nat)
    (user : JWTPayload) (fid : String) (now : Nat) (b : OrderCreateBody)
    (o : Order) (ub : OrderUpdateBody) (tq : Nat)
    (htq : ub.totalQuantity = some tq) :
    (handleSizeChange it sizeIdx fv).totalQuantity =
      sumQuantities (handleSizeChange it sizeIdx fv).sizes ∧
    (removeSizeRow it sizeIdx).totalQuantity =
      sumQuantities (removeSizeRow it sizeIdx).sizes ∧
    (setSizeCategory it v).totalQuantity =
      sumQuantities (setSizeCategory it v).sizes ∧
    (buildOrderData pd user fid now b).totalQuantity = b.totalQuantity ∧
    (applyUpdate pd o ub).totalQuantity = tq := by
  refine ⟨rfl, rfl, rfl, rfl, ?_⟩
  simp [applyUpdate, htq]

/-- Witness for C1 (amended) at concrete inputs. -/
theorem c1_total_recomputed_in_ui_witness :
    (handleSizeChange demoItemForm 0 (SizeFieldValue.quantity 7)).totalQuantity =
      sumQuantities (handleSizeChange demoItemForm 0 (SizeFieldValue.quantity 7)).sizes ∧
    (removeSizeRow demoItemForm 0).totalQuantity =
      sumQuantities (removeSizeRow demoItemForm 0).sizes ∧
    (setSizeCategory demoItemForm SizeCategory.bottom).totalQuantity =
      sumQuantities (setSizeCategory demoItemForm SizeCategory.bottom).sizes ∧
    (buildOrderData demoParse demoUserA "new1" 10 demoCreateBody).totalQuantity =
      demoCreateBody.totalQuantity ∧
    (applyUpdate demoParse demoOrder demoTotalBody).totalQuantity = 42 :=
  c1_total_recomputed_in_ui demoItemForm 0 (SizeFieldValue.quantity 7)
    SizeCategory.bottom demoParse demoUserA "new1" 10 demoCreateBody
    demoOrder demoTotalBody 42 rfl

/-! ## Claim C9 -/

/-- Counterexample for C9: on an id with no matching order, the
authenticated update and delete handlers do not answer NotFound — the
store's record-not-found exception is swallowed by the catch-all, which
answers the generic 500. -/
theorem c9_counterexample :
    (orderPUT demoJv demoParse (some "Bearer tokA") "missing" demoEmptyBody []).1 =
      OrderResp.serverError ∧
    (orderDELETE demoJv (some "Bearer tokA") "missing" []).1 =
      OrderResp.serverError ∧
    OrderResp.serverError ≠ OrderResp.notFound := by
  refine ⟨?_, ?_, by decide⟩ <;> decide

/-- C9 (amended): for every id with no matching order, the
authenticated update and delete operations leave the store unchanged
and answer the generic 500 internal error (Prisma's P2025 exception
caught by the handler), not a NotFound result. -/
theorem c9_missing_id_is_500 (jv : String → Except JwtError JWTPayload)
    (pd : String → Nat) (h : Option String) (oid : String)
    (b : OrderUpdateBody) (store : List Order) (user : JWTPayload)
    (hauth : authenticateRequest jv h = some user)
    (hfind : findOrder store oid = none) :
    orderPUT jv pd h oid b store = (OrderResp.serverError, store) ∧
    orderDELETE jv h oid store = (OrderResp.serverError, store) := by
  constructor
  · simp [orderPUT, hauth, hfind]
  · simp [orderDELETE, hauth, hfind]

/-- Witness for C9 (amended) on the empty store. -/
theorem c9_missing_id_is_500_witness :
    orderPUT demoJv demoParse (some "Bearer tokA") "missing" demoEmptyBody [] =
      (OrderResp.serverError, []) ∧
    orderDELETE demoJv (some "Bearer tokA") "missing" [] =
      (OrderResp.serverError, []) :=
  c9_missing_id_is_500 demoJv demoParse (some "Bearer tokA") "missing"
    demoEmptyBody [] demoUserA (by decide) rfl

/-! ## Claim C10 -/

/-- C10: every protected handler authenticates before parsing the body
or touching the store: a request that fails authentication gets 401 and
the store after the request equals the store before it, for every body
and every parameter. -/
theorem c10_unauthenticated_leaves_state (jv : String → Except JwtError JWTPayload)
    (pd : String → Nat) (h : Option String) (oid fid nid : String) (now : Nat)
    (ob : OrderUpdateBody) (cb : OrderCreateBody) (nb : NotifCreateBody)
    (os : List Order) (ns : List Notification)
    (hauth : authenticateRequest jv h = none) :
    orderGET jv h oid os = (OrderResp.unauthorized, os) ∧
    orderPUT jv pd h oid ob os = (OrderResp.unauthorized, os) ∧
    orderDELETE jv h oid os = (OrderResp.unauthorized, os) ∧
    ordersPOST jv pd h fid now cb os = (OrderResp.unauthorized, os) ∧
    ordersGET jv h os = (OrderResp.unauthorized, os) ∧
    notifsGET jv h ns = NotifResp.unauthorized ∧
    notifsPOST jv h fid now nb ns = (NotifResp.unauthorized, ns) ∧
    notifReadPUT jv h nid ns = (NotifResp.unauthorized, ns) ∧
    readAllPUT jv h ns = (NotifResp.unauthorized, ns) := by
  refine ⟨?_, ?_, ?_, ?_, ?_, ?_, ?_, ?_, ?_⟩ <;>
    simp [orderGET, orderPUT, orderDELETE, ordersPOST, ordersGET, notifsGET,
      notifsPOST, notifReadPUT, readAllPUT, hauth]

/-- Witness for C10: a request with a malformed bearer token is
rejected by every handler with the stores intact. -/
theorem c10_unauthenticated_leaves_state_witness :
    orderPUT demoJv demoParse (some "Bearer junk") "o1" demoStatusBody [demoOrder] =
      (OrderResp.unauthorized, [demoOrder]) ∧
    notifsPOST demoJv (some "Bearer junk") "n9" 5 demoNotifBody [] =
      (NotifResp.unauthorized, []) := by
  have h := c10_unauthenticated_leaves_state demoJv demoParse
    (some "Bearer junk") "o1" "n9" "n1" 5 demoStatusBody demoCreateBody
    demoNotifBody [demoOrder] [] (by decide)
  exact ⟨h.2.1, h.2.2.2.2.2.2.1⟩

/-! ## Claim C7 -/

/-- An unread notification owned by user A. -/
def demoNotifA : Notification :=
  { id := "n1", userId := "userA", title := "Welcome", message := "Hello",
    type := "info", read := false, createdAt := 1 }

/-- An already-read notification owned by user A. -/
def demoNotifA2 : Notification :=
  { id := "n2", userId := "userA", title := "Update", message := "Saved",
    type := "success", read := true, createdAt := 2 }

/-- An unread notification owned by user B. -/
def demoNotifB : Notification :=
  { id := "n3", userId := "userB", title := "Alert", message := "Check",
    type := "alert", read := false, createdAt := 3 }

/-- A store holding notifications of both users. -/
def demoNotifStore : List Notification := [demoNotifA, demoNotifA2, demoNotifB]

/-- Auxiliary: mapping a function that preserves a predicate and fixes
every element satisfying it leaves the filtered sublist unchanged. -/
theorem filter_map_of_fix (p : Notification → Bool)
    (g : Notification → Notification) (hp : ∀ x, p (g x) = p x)
    (hfix : ∀ x, p x = true → g x = x) (l : List Notification) :
    (l.map g).filter p = l.filter p := by
  induction l with
  | nil => rfl
  | cons a l ih =>
    rw [List.map_cons, List.filter_cons, List.filter_cons, hp a]
    by_cases hpa : p a = true
    · rw [if_pos hpa, if_pos hpa, hfix a hpa, ih]
    · rw [if_neg hpa, if_neg hpa, ih]

/-- Auxiliary: the mark-one-read map touches only records owned by the
caller, so the slice of the store owned by anyone else is unchanged. -/
theorem filter_other_owner_markRead (uid nid owner : String)
    (l : List Notification) (hne : owner ≠ uid) :
    (l.map (fun x =>
      if x.id == nid && x.userId == uid then { x with read := true } else x)).filter
        (fun x => x.userId == owner) =
    l.filter (fun x => x.userId == owner) := by
  apply filter_map_of_fix
  · intro x
    by_cases hc : (x.id == nid && x.userId == uid) = true
    · rw [if_pos hc]
    · rw [if_neg hc]
  · intro x hx
    have hxo : x.userId = owner := by simpa using hx
    have hc : (x.id == nid && x.userId == uid) = false := by
      rw [Bool.and_eq_false_iff]
      right
      rw [beq_eq_false_iff_ne, hxo]
      exact hne
    rw [hc]
    simp

/-- C7: a notification owned by a user other than the authenticated
caller is never returned by the list operation and never mutated by the
mark-one-read operation — the list filters by the owner derived from
the token, and markRead's ownership check is part of its lookup
predicate. -/
theorem c7_notification_isolation (jv : String → Except JwtError JWTPayload)
    (h : Option String) (store : List Notification) (u : JWTPayload)
    (n : Notification) (nid : String)
    (hauth : authenticateRequest jv h = some u)
    (hown : n.userId ≠ u.userId) :
    (∀ ns, notifsGET jv h store = NotifResp.okList ns → n ∉ ns) ∧
    (notifReadPUT jv h nid store).2.filter (fun x => x.userId == n.userId) =
      store.filter (fun x => x.userId == n.userId) := by
  constructor
  · intro ns hns hmem
    simp only [notifsGET, hauth] at hns
    injection hns with hns
    rw [← hns] at hmem
    simp only [List.mem_mergeSort, List.mem_filter] at hmem
    exact hown (by simpa using hmem.2)
  · simp only [notifReadPUT, hauth]
    cases hfind : store.find? (fun m => m.id == nid && m.userId == u.userId) with
    | none => simp
    | some m =>
      simp only []
      exact filter_other_owner_markRead u.userId nid n.userId store hown

/-- Witness for C7: user B's token sees none of user A's notifications
and leaves user A's slice of the store intact under markRead. -/
theorem c7_notification_isolation_witness :
    demoNotifA ∉ [demoNotifB] ∧
    (notifReadPUT demoJv (some "Bearer tokB") "n1" demoNotifStore).2.filter
      (fun x => x.userId == demoNotifA.userId) =
      demoNotifStore.filter (fun x => x.userId == demoNotifA.userId) := by
  have h := c7_notification_isolation demoJv (some "Bearer tokB") demoNotifStore
    demoUserB demoNotifA "n1" (by decide) (by decide)
  have hauth : authenticateRequest demoJv (some "Bearer tokB") = some demoUserB := by
    decide
  have hget : notifsGET demoJv (some "Bearer tokB") demoNotifStore =
      NotifResp.okList [demoNotifB] := by
    simp only [notifsGET, hauth]
    have hf : demoNotifStore.filter (fun n => n.userId == demoUserB.userId) =
        [demoNotifB] := by decide
    rw [hf]
    simp
  exact ⟨h.1 [demoNotifB] hget, h.2⟩

/-! ## Claim C8 -/

/-- Auxiliary: after the bulk flip, every record owned by the caller is
read. -/
theorem markAllRead_owned_read (uid : String) (l : List Notification) :
    ∀ n ∈ (markAllReadCore uid l).2, n.userId = uid → n.read = true := by
  intro n hn hu
  simp only [markAllReadCore] at hn
  rcases List.mem_map.mp hn with ⟨m, hm, he⟩
  by_cases hc : (m.userId == uid && !m.read) = true
  · rw [if_pos hc] at he
    rw [← he]
  · rw [if_neg (by simpa using hc)] at he
    rw [← he] at hu ⊢
    simp [hu] at hc
    exact hc

/-- Auxiliary: when the flip predicate holds nowhere in the list, the
bulk update matches zero rows and is the identity. -/
theorem filter_len_zero_map_id (p : Notification → Bool)
    (f : Notification → Notification) (l : List Notification)
    (hall : ∀ n ∈ l, p n = false) :
    (l.filter p).length = 0 ∧ l.map (fun n => if p n then f n else n) = l := by
  induction l with
  | nil => exact ⟨rfl, rfl⟩
  | cons a l ih =>
    have ha := hall a (List.mem_cons_self a l)
    obtain ⟨h1, h2⟩ := ih (fun n hn => hall n (List.mem_cons_of_mem a hn))
    constructor
    · simp [List.filter_cons, ha, h1]
    · simp [List.map_cons, ha, h2]

/-- C8: the bulk mark-all-read operation returns the number of the
caller's unread records and flips exactly those: afterwards every
record owned by the caller is read, rows the predicate did not match
are still present unchanged, and an immediately repeated call flips
nothing and returns count 0. -/
theorem c8_mark_all_read_idempotent (jv : String → Except JwtError JWTPayload)
    (h : Option String) (store : List Notification) (u : JWTPayload)
    (hauth : authenticateRequest jv h = some u) :
    readAllPUT jv h store =
      (NotifResp.okCount
        ((store.filter (fun n => n.userId == u.userId && !n.read)).length),
       (markAllReadCore u.userId store).2) ∧
    (∀ n ∈ (markAllReadCore u.userId store).2,
      n.userId = u.userId → n.read = true) ∧
    (∀ n ∈ store, (n.userId == u.userId && !n.read) = false →
      n ∈ (markAllReadCore u.userId store).2) ∧
    readAllPUT jv h (markAllReadCore u.userId store).2 =
      (NotifResp.okCount 0, (markAllReadCore u.userId store).2) := by
  refine ⟨?_, markAllRead_owned_read u.userId store, ?_, ?_⟩
  · simp [readAllPUT, hauth, markAllReadCore]
  · intro n hn hf
    simp only [markAllReadCore]
    exact List.mem_map.mpr ⟨n, hn, by simp [hf]⟩
  · have hall : ∀ n ∈ (markAllReadCore u.userId store).2,
        (n.userId == u.userId && !n.read) = false := by
      intro n hn
      by_cases hu : n.userId = u.userId
      · have := markAllRead_owned_read u.userId store n hn hu
        simp [this]
      · simp [hu]
    have hfix := filter_len_zero_map_id
      (fun n => n.userId == u.userId && !n.read)
      (fun n => { n with read := true })
      (markAllReadCore u.userId store).2 hall
    simp only [readAllPUT, hauth, markAllReadCore]
    simp only [markAllReadCore] at hfix
    rw [hfix.1, hfix.2]

/-- Witness for C8: with one unread record of the caller in the store,
the first call reports count 1 and the repeated call reports count 0 on
an unchanged store. -/
theorem c8_mark_all_read_idempotent_witness :
    readAllPUT demoJv (some "Bearer tokA") demoNotifStore =
      (NotifResp.okCount 1, (markAllReadCore demoUserA.userId demoNotifStore).2) ∧
    readAllPUT demoJv (some "Bearer tokA")
        (markAllReadCore demoUserA.userId demoNotifStore).2 =
      (NotifResp.okCount 0, (markAllReadCore demoUserA.userId demoNotifStore).2) := by
  have h := c8_mark_all_read_idempotent demoJv (some "Bearer tokA")
    demoNotifStore demoUserA (by decide)
  constructor
  · rw [h.1]
    decide
  · exact h.2.2.2

end US81
